import Mathlib

/-!
Shallow embedding of the OmniTensor node's compute core:
`src/compute/gpu_manager.rs`, `src/compute/task_scheduler.rs` and
`src/data/validation.rs`.  Pure functions mirror the Rust methods; shared
mutable state (`Arc<Mutex<...>>`) becomes explicit state passing, mutex
acquisition is modelled as always succeeding (the poisoned-lock error paths
are unreachable in the pure model), and fallible calls return
`Option`/`Except`.  External collaborators (the tokio runtime, the model
executor, the consensus manager, the data store) enter as explicit oracle
arguments.
-/

namespace OmniTensor

/-! ## Device model (`crate::utils::gpu`, consumed by `gpu_manager.rs`)

`GPUDevice` exposes `name()`, `memory()` (total bytes), `current_load()` and
`memory_info()` in the source.  The type itself lives outside the scheduler
core, so its fields are taken from the interface the core consumes:
total memory, a load counter, and the used-memory figure that
`memory_info()` reports. -/

structure GPUDevice where
  name : String
  memory : Nat
  current_load : Nat
  memUsed : Nat
  deriving Repr, DecidableEq

structure GPUConfig where
  min_memory : Nat
  deriving Repr, DecidableEq

structure GPUMemoryInfo where
  total : Nat
  used : Nat
  deriving Repr, DecidableEq

/-- Modelled from the spec: `GPUDevice::memory_info` (`crate::utils::gpu` is
not under src/): the "derived memory-usage snapshot {total, used}" of a
device — total memory together with the device's used-memory figure. -/
def memory_info (d : GPUDevice) : GPUMemoryInfo :=
  { total := d.memory, used := d.memUsed }

/-! ## `GPUManager` (`src/compute/gpu_manager.rs`) -/

/-- `GPUManager::initialize_devices`: keep each enumerated device whose
`memory()` is at least `config.min_memory` (pushed in enumeration order);
error when the retained vector is empty. -/
def initialize_devices (available : List GPUDevice) (config : GPUConfig) :
    Except String (List GPUDevice) :=
  let retained := available.foldl
    (fun acc d => if config.min_memory ≤ d.memory then acc ++ [d] else acc) []
  if retained.isEmpty then
    .error "No suitable GPU devices available"
  else
    .ok retained

/-- `GPUManager::select_available_device`:
`iter().min_by_key(|d| d.current_load()).cloned()` — `min_by_key` returns the
first element among those of equally minimal key, so the fold only replaces
the running best on a strictly smaller load. -/
def select_available_device : List GPUDevice → Option GPUDevice
  | [] => none
  | d :: ds =>
      some (ds.foldl (fun best e =>
        if e.current_load < best.current_load then e else best) d)

/-- `GPUManager::get_gpu_stats`: one `memory_info()` snapshot per retained
device, in registry order. -/
def get_gpu_stats (devices : List GPUDevice) : List GPUMemoryInfo :=
  devices.map memory_info

/-- The task type fed to the `GPUManager` channel
(`crate::models::ComputeTask`, constructed in the tests as
`ComputeTask::new("test_task", vec![1, 2, 3])`): a name and an opaque
payload. -/
structure MTask where
  name : String
  data : List Nat
  deriving Repr, DecidableEq

/-- What one iteration of `GPUManager::process_task_queue` did to the task it
received from the channel. -/
inductive QueueStepOutcome where
  /-- A device was selected; `execute_task` ran on it (an execution error is
  only logged). -/
  | executed (t : MTask) (d : GPUDevice)
  /-- `select_available_device` returned `None`: the branch logs
  "No available GPU device, task queued" and falls through (the comment
  `// Implement queuing logic here` marks the unwritten requeue). -/
  | noDevice (t : MTask)
  /-- The channel yielded nothing (`rx.recv()` pending / closed). -/
  | idle
  deriving Repr, DecidableEq

/-- One iteration of the `while let Some(task) = rx.recv().await` loop of
`GPUManager::process_task_queue`: the pending channel contents are the list
`rx`; the iteration consumes the head and either executes it on the selected
device or, when no device is available, merely logs.  Returns the remaining
channel contents and what happened to the head. -/
def process_task_queue_step (devices : List GPUDevice) (rx : List MTask) :
    List MTask × QueueStepOutcome :=
  match rx with
  | [] => ([], .idle)
  | task :: rest =>
      match select_available_device devices with
      | some gpu => (rest, .executed task gpu)
      | none => (rest, .noDevice task)

/-- `GPUManager::new` creates the task channel as `mpsc::channel(100)`. -/
def gpuChannelCapacity : Nat := 100

/-- `GPUManager::submit_task` = `self.task_queue.send(task).await`: a send on
the bounded tokio channel appends when a slot is free and suspends the caller
while the channel holds `gpuChannelCapacity` messages.  `none` models the
suspended (blocked) caller: the channel is unchanged and nothing is dropped
or errored. -/
def channel_send (pending : List MTask) (t : MTask) : Option (List MTask) :=
  if pending.length < gpuChannelCapacity then some (pending ++ [t]) else none

/-! ## `TaskScheduler` (`src/compute/task_scheduler.rs`)

Durations (`tokio::time::Duration`) are modelled as natural numbers of
nanoseconds; `Instant` subtraction becomes the measured duration the
execution oracle reports. -/

structure ComputeTask where
  id : String
  model_id : String
  input_data : List Nat
  priority : Nat
  max_duration : Nat
  deriving Repr, DecidableEq

inductive OmniTensorError where
  | LockError
  | GpuUnavailable
  | ModelLoadError
  | ExecutionError
  deriving Repr, DecidableEq

/-- Modelled from the spec: the `MetricsCollector` (`crate::metrics`, not
under src/) of §4.5 — "Four counters (`queued`, `completed`, `failed`,
`overdue`) and one timer series (`executionDuration`)". -/
structure MetricsCollector where
  queued : Nat
  completed : Nat
  failed : Nat
  overdue : Nat
  execution_samples : List Nat
  deriving Repr, DecidableEq

/-- Modelled from the spec: `MetricsCollector::record_task_execution` records
one execution-time sample in the timer series. -/
def record_task_execution (m : MetricsCollector) (t : Nat) : MetricsCollector :=
  { m with execution_samples := m.execution_samples ++ [t] }

/-- Modelled from the spec: `MetricsCollector::increment_overdue_tasks` adds
one to the `overdue` counter. -/
def increment_overdue_tasks (m : MetricsCollector) : MetricsCollector :=
  { m with overdue := m.overdue + 1 }

/-- Modelled from the spec: `MetricsCollector::increment_queued_tasks` adds
one to the `queued` counter. -/
def increment_queued_tasks (m : MetricsCollector) : MetricsCollector :=
  { m with queued := m.queued + 1 }

/-- The mutable state a `TaskScheduler` closes over: its `VecDeque` queue,
the per-device load counters of the `GpuManager` it holds, and the metrics
counters. -/
structure SchedulerState where
  queue : List ComputeTask
  loads : List Nat
  metrics : MetricsCollector
  deriving Repr, DecidableEq

/-- `TaskScheduler::submit_task`: `queue.push_back(task)` followed by
`metrics.increment_queued_tasks()`.  The `VecDeque` has no capacity bound and
`push_back` never blocks; the lock is modelled as acquired successfully, so
the `LockError` branch does not appear. -/
def submit_task (s : SchedulerState) (t : ComputeTask) : SchedulerState :=
  { s with
    queue := s.queue ++ [t]
    metrics := increment_queued_tasks s.metrics }

/-- The queue-pop step of `TaskScheduler::run`: `queue.pop_front()` under the
lock — head and remainder when non-empty, nothing otherwise. -/
def try_dequeue (q : List ComputeTask) : Option ComputeTask × List ComputeTask :=
  match q with
  | [] => (none, [])
  | t :: rest => (some t, rest)

/-- Modelled from the spec: `GpuManager::acquire_gpu` (the `GpuManager` type
`TaskScheduler` consumes is not under src/; §4.1 and §5: selection picks the
least-loaded device — first on ties — and "increments the chosen device's
load counter").  The handle is the chosen device's index; `none` models the
empty device pool. -/
def acquire_gpu (loads : List Nat) : Option (Nat × List Nat) :=
  match (List.range loads.length).find?
      (fun i => loads.all (fun x => decide (loads.getD i 0 ≤ x))) with
  | none => none
  | some i => some (i, loads.set i (loads.getD i 0 + 1))

/-- Modelled from the spec: `GpuManager::release_gpu` (not under src/; §4.1:
"decrementing it once execution finishes") — decrement the handle's load
counter. -/
def release_gpu (gpu : Nat) (loads : List Nat) : List Nat :=
  loads.set gpu (loads.getD gpu 0 - 1)

/-- `TaskScheduler::process_task`, with the external collaborators as
oracles: `loadOk` is whether `model_loader.load_model` succeeds, and
`execOutcome` is `model.execute`'s result — `some t` for success measured at
`t` nanoseconds, `none` for an execution error.  Each `?` that fires returns
the error with the state as mutated so far. -/
def process_task (s : SchedulerState) (task : ComputeTask) (loadOk : Bool)
    (execOutcome : Option Nat) : Except OmniTensorError Unit × SchedulerState :=
  match acquire_gpu s.loads with
  | none => (.error .GpuUnavailable, s)
  | some (gpu, loads₁) =>
      let s₁ := { s with loads := loads₁ }
      if loadOk then
        match execOutcome with
        | none => (.error .ExecutionError, s₁)
        | some execution_time =>
            let s₂ := { s₁ with metrics := record_task_execution s₁.metrics execution_time }
            let s₃ :=
              if task.max_duration < execution_time then
                { s₂ with metrics := increment_overdue_tasks s₂.metrics }
              else s₂
            (.ok (), { s₃ with loads := release_gpu gpu s₃.loads })
      else (.error .ModelLoadError, s₁)

/-- `n` iterations of the `TaskScheduler::run` loop, restricted to its queue
effect: each iteration pops the front task (processing it; an error is logged
and the loop continues) or, on an empty queue, sleeps and retries.  Returns
the tasks in the order the loop dequeued them, together with the final
queue. -/
def run_steps : Nat → List ComputeTask → List ComputeTask × List ComputeTask
  | 0, q => ([], q)
  | n + 1, q =>
      match try_dequeue q with
      | (none, q') => run_steps n q'
      | (some t, q') =>
          let (dispatched, qFinal) := run_steps n q'
          (t :: dispatched, qFinal)

/-! ## `DataValidator` (`src/data/validation.rs`)

`crate::models::DataItem` is not under src/; its three variants and their
payload types are exactly those `is_valid_format` matches on.  The `f64`
payload of `Numeric` is modelled as a rational number (only the order
comparisons `>= 0.0` and `<= 1.0` are applied to it). -/

inductive DataItem where
  | Text (text : String)
  | Image (image_data : List Nat)
  | Numeric (num : ℚ)
  deriving DecidableEq

structure ValidationResult where
  is_valid : Bool
  confidence : ℚ
  validator_count : Nat
  deriving DecidableEq

inductive ValidationError where
  | InvalidFormat
  | ConsensusFailure
  | DatabaseError (msg : String)
  | Unknown
  deriving Repr, DecidableEq

/-- `DataValidator::is_valid_format`. -/
def is_valid_format : DataItem → Bool
  | .Text text => !text.isEmpty && decide (text.length ≤ 1000)
  | .Image image_data =>
      decide (0 < image_data.length) && decide (image_data.length ≤ 10000000)
  | .Numeric num => decide ((0 : ℚ) ≤ num) && decide (num ≤ 1)

/-- `DataValidator::validate_data`, with the collaborators as oracles:
`consensus` is what `consensus_manager.reach_consensus` returns (its error is
mapped to `ConsensusFailure` by `reach_consensus`), and `storeOutcome` is the
data store's reply to `store_validation_result` (an error becomes
`DatabaseError`).  `stored` is the store's contents, one entry per persisted
validation result; the keying by `data.id()` is modelled by keeping the item
itself. -/
def validate_data (data : DataItem) (consensus : Except Unit ValidationResult)
    (storeOutcome : Except String Unit)
    (stored : List (DataItem × ValidationResult)) :
    Except ValidationError ValidationResult × List (DataItem × ValidationResult) :=
  if is_valid_format data then
    match consensus with
    | .error _ => (.error .ConsensusFailure, stored)
    | .ok consensus_result =>
        let validation_result : ValidationResult :=
          { is_valid := consensus_result.is_valid
            confidence := consensus_result.confidence
            validator_count := consensus_result.validator_count }
        match storeOutcome with
        | .error e => (.error (.DatabaseError e), stored)
        | .ok _ => (.ok validation_result, stored ++ [(data, validation_result)])
  else (.error .InvalidFormat, stored)

/-! ## Concrete instances used by the closed theorems -/

/-- The fold inside `select_available_device` (Rust's `min_by_key`, which
keeps the first of equally minimal elements). -/
def min_by_load_fold (a : GPUDevice) (ds : List GPUDevice) : GPUDevice :=
  ds.foldl (fun best e => if e.current_load < best.current_load then e else best) a

def zeroMetrics : MetricsCollector := ⟨0, 0, 0, 0, []⟩

/-- A scheduler over one idle device (load counter 0). -/
def demoState : SchedulerState := { queue := [], loads := [0], metrics := zeroMetrics }

/-- The task of the scheduler test, with a one-second maximum duration. -/
def demoTask : ComputeTask :=
  { id := "task1", model_id := "model1", input_data := [1, 2, 3], priority := 1,
    max_duration := 1000000000 }

/-- The task of the `gpu_manager` test: `ComputeTask::new("test_task", vec![1, 2, 3])`. -/
def demoMTask : MTask := { name := "test_task", data := [1, 2, 3] }

/-- An 8 GiB device with 1 KiB in use. -/
def demoDevice : GPUDevice :=
  { name := "gpu0", memory := 8589934592, current_load := 0, memUsed := 1024 }

/-! ## Helper lemmas -/

/-- The retain-loop of `initialize_devices` computes a filter: pushing each
device that passes the memory test onto the accumulator keeps exactly the
passing devices, in enumeration order. -/
theorem foldl_keep_eq_filter (config : GPUConfig) (l : List GPUDevice) :
    ∀ acc : List GPUDevice,
      l.foldl (fun acc d => if config.min_memory ≤ d.memory then acc ++ [d] else acc) acc
        = acc ++ l.filter (fun d => decide (config.min_memory ≤ d.memory)) := by
  induction l with
  | nil => intro acc; simp
  | cons d ds ih =>
      intro acc
      by_cases h : config.min_memory ≤ d.memory
      · simp [List.foldl_cons, h, ih, List.filter_cons]
      · simp [List.foldl_cons, h, ih, List.filter_cons]

/-- Submitting a list of tasks in order appends them, in order, to the tail
of the scheduler queue. -/
theorem queue_after_submits (ts : List ComputeTask) :
    ∀ s : SchedulerState, (ts.foldl submit_task s).queue = s.queue ++ ts := by
  induction ts with
  | nil => intro s; simp
  | cons t ts ih => intro s; simp [List.foldl_cons, ih, submit_task]

/-- Running the dispatch loop once per pending task dequeues the whole queue
in queue order. -/
theorem run_steps_drains (q : List ComputeTask) : run_steps q.length q = (q, []) := by
  induction q with
  | nil => rfl
  | cons t r ih => simp [run_steps, try_dequeue, ih]

/-- Characterisation of the `min_by_key` fold: either the accumulator `a`
survives and is no more loaded than anything in `ds`, or the result sits at
some position `i` of `ds`, is strictly less loaded than `a`, is minimal over
`ds`, and every element of `ds` before position `i` is strictly more
loaded. -/
theorem min_by_load_fold_spec (ds : List GPUDevice) :
    ∀ a : GPUDevice,
      (min_by_load_fold a ds = a ∧ ∀ e ∈ ds, a.current_load ≤ e.current_load) ∨
      (∃ i, ∃ h : i < ds.length,
        ds.get ⟨i, h⟩ = min_by_load_fold a ds ∧
        (min_by_load_fold a ds).current_load < a.current_load ∧
        (∀ e ∈ ds, (min_by_load_fold a ds).current_load ≤ e.current_load) ∧
        ∀ e ∈ ds.take i, (min_by_load_fold a ds).current_load < e.current_load) := by
  induction ds with
  | nil =>
      intro a
      left
      exact ⟨rfl, by simp⟩
  | cons e ds ih =>
      intro a
      by_cases he : e.current_load < a.current_load
      · have hfold : min_by_load_fold a (e :: ds) = min_by_load_fold e ds := by
          simp [min_by_load_fold, List.foldl_cons, he]
        rcases ih e with ⟨heq, hmin⟩ | ⟨i, hi, hget, hlt, hmin, hfirst⟩
        · right
          refine ⟨0, Nat.succ_pos _, ?_, ?_, ?_, ?_⟩
          · rw [hfold, heq]; rfl
          · rw [hfold, heq]; exact he
          · rw [hfold, heq]
            intro x hx
            rcases List.mem_cons.mp hx with rfl | hx'
            · exact le_refl _
            · exact hmin x hx'
          · intro x hx; simp at hx
        · right
          refine ⟨i + 1, Nat.succ_lt_succ hi, ?_, ?_, ?_, ?_⟩
          · rw [hfold]; exact hget
          · rw [hfold]; exact lt_trans hlt he
          · rw [hfold]
            intro x hx
            rcases List.mem_cons.mp hx with rfl | hx'
            · exact le_of_lt hlt
            · exact hmin x hx'
          · rw [hfold]
            intro x hx
            rw [List.take_succ_cons] at hx
            rcases List.mem_cons.mp hx with rfl | hx'
            · exact hlt
            · exact hfirst x hx'
      · have hfold : min_by_load_fold a (e :: ds) = min_by_load_fold a ds := by
          simp [min_by_load_fold, List.foldl_cons, he]
        have hea : a.current_load ≤ e.current_load := Nat.le_of_not_lt he
        rcases ih a with ⟨heq, hmin⟩ | ⟨i, hi, hget, hlt, hmin, hfirst⟩
        · left
          constructor
          · rw [hfold]; exact heq
          · intro x hx
            rcases List.mem_cons.mp hx with rfl | hx'
            · exact hea
            · exact hmin x hx'
        · right
          refine ⟨i + 1, Nat.succ_lt_succ hi, ?_, ?_, ?_, ?_⟩
          · rw [hfold]; exact hget
          · rw [hfold]; exact hlt
          · rw [hfold]
            intro x hx
            rcases List.mem_cons.mp hx with rfl | hx'
            · exact le_of_lt (lt_of_lt_of_le hlt hea)
            · exact hmin x hx'
          · rw [hfold]
            intro x hx
            rw [List.take_succ_cons] at hx
            rcases List.mem_cons.mp hx with rfl | hx'
            · exact lt_of_lt_of_le hlt hea
            · exact hfirst x hx'

/-! ## Claim theorems -/

/-- C4: `initialize_devices` retains exactly the enumerated devices whose
total memory is at least `config.min_memory`; it succeeds (returning that
retained list) precisely when the retained set is non-empty, and fails with
the no-device error precisely when it is empty. -/
theorem initialize_devices_retains_min_memory (available : List GPUDevice)
    (config : GPUConfig) :
    (∀ l, initialize_devices available config = .ok l →
        l = available.filter (fun d => decide (config.min_memory ≤ d.memory))) ∧
    (available.filter (fun d => decide (config.min_memory ≤ d.memory)) ≠ [] ↔
      initialize_devices available config =
        .ok (available.filter (fun d => decide (config.min_memory ≤ d.memory)))) ∧
    (available.filter (fun d => decide (config.min_memory ≤ d.memory)) = [] ↔
      initialize_devices available config =
        .error "No suitable GPU devices available") := by
  have hfold := foldl_keep_eq_filter config available []
  by_cases h : (available.filter fun d => decide (config.min_memory ≤ d.memory)) = []
  · simp [initialize_devices, hfold, h]
  · simp [initialize_devices, hfold, h, List.isEmpty_iff]

/-- C5: `select_available_device` returns `none` exactly on an empty device
registry; otherwise the returned device occurs at some registry position,
has minimal `current_load` among all registered devices, and every device at
an earlier registry position is strictly more loaded (Rust's `min_by_key`
keeps the first of equally minimal devices, so ties go to the earlier
device). -/
theorem select_available_device_least_loaded (devices : List GPUDevice) :
    (select_available_device devices = none ↔ devices = []) ∧
    ∀ d, select_available_device devices = some d →
      ∃ i, ∃ h : i < devices.length,
        devices.get ⟨i, h⟩ = d ∧
        (∀ e ∈ devices, d.current_load ≤ e.current_load) ∧
        ∀ e ∈ devices.take i, d.current_load < e.current_load := by
  cases devices with
  | nil =>
      constructor
      · simp [select_available_device]
      · intro d hd; simp [select_available_device] at hd
  | cons a ds =>
      constructor
      · simp [select_available_device]
      · intro d hd
        have hfold : min_by_load_fold a ds = d := by
          simpa [select_available_device, min_by_load_fold] using hd
        rcases min_by_load_fold_spec ds a with ⟨heq, hmin⟩ | ⟨i, hi, hget, hlt, hmin, hfirst⟩
        · have hda : a = d := by rw [← hfold, heq]
          refine ⟨0, Nat.succ_pos _, ?_, ?_, ?_⟩
          · exact hda
          · intro x hx
            rcases List.mem_cons.mp hx with rfl | hx'
            · rw [← hda]
            · rw [← hda]; exact hmin x hx'
          · intro x hx; simp at hx
        · rw [hfold] at hget hlt hmin hfirst
          refine ⟨i + 1, Nat.succ_lt_succ hi, ?_, ?_, ?_⟩
          · exact hget
          · intro x hx
            rcases List.mem_cons.mp hx with rfl | hx'
            · exact le_of_lt hlt
            · exact hmin x hx'
          · intro x hx
            rw [List.take_succ_cons] at hx
            rcases List.mem_cons.mp hx with rfl | hx'
            · exact hlt
            · exact hfirst x hx'

/-- C6: dispatch order equals submission order.  Submitting any sequence of
tasks (their `priority` and `max_duration` fields arbitrary) appends them to
the queue in submission order, and the run loop then dequeues the whole
queue front-first, so the dispatched sequence is exactly the prior queue
contents followed by the submitted tasks in submission order — strict FIFO,
with no reordering by priority or deadline. -/
theorem dispatch_order_eq_submission_order (s : SchedulerState)
    (ts : List ComputeTask) :
    (ts.foldl submit_task s).queue = s.queue ++ ts ∧
    run_steps (s.queue ++ ts).length (ts.foldl submit_task s).queue
      = (s.queue ++ ts, []) := by
  have hq := queue_after_submits ts s
  exact ⟨hq, by rw [hq]; exact run_steps_drains _⟩

/-- C7: when device acquisition succeeds, model loading succeeds and the
execution succeeds with measured duration `t`, `process_task` returns `ok`
(the task is treated as completed) and the overdue counter grows by exactly
one when `t` exceeds the task's `max_duration`, and is unchanged
otherwise. -/
theorem process_task_overdue_exactly_when_exceeded (s : SchedulerState)
    (task : ComputeTask) (t gpu : Nat) (loads₁ : List Nat)
    (hacq : acquire_gpu s.loads = some (gpu, loads₁)) :
    (process_task s task true (some t)).1 = .ok () ∧
    (process_task s task true (some t)).2.metrics.overdue =
      s.metrics.overdue + (if task.max_duration < t then 1 else 0) := by
  by_cases hover : task.max_duration < t
  · simp [process_task, hacq, hover, record_task_execution, increment_overdue_tasks]
  · simp [process_task, hacq, hover, record_task_execution]

/-- Witness for C7, at the spec's own example: a task with a 1 s maximum
whose execution measures 1.5 s completes and bumps the overdue counter by
exactly one. -/
theorem process_task_overdue_witness :
    (process_task demoState demoTask true (some 1500000000)).1 = .ok () ∧
    (process_task demoState demoTask true (some 1500000000)).2.metrics.overdue =
      demoState.metrics.overdue + (if demoTask.max_duration < 1500000000 then 1 else 0) :=
  process_task_overdue_exactly_when_exceeded demoState demoTask 1500000000 0 [1]
    (by decide)

/-- C8 (amended): per-task processing leaves the `completed`, `failed` and
`queued` counters unchanged (the source never calls an outcome-counter
increment), raises `overdue` by at most one, and each `submit_task` call
raises `queued` by exactly one while touching no other counter; no scheduler
operation decrements `queued`. -/
theorem process_task_counter_effects (s : SchedulerState) (task t' : ComputeTask)
    (loadOk : Bool) (execOutcome : Option Nat) :
    (process_task s task loadOk execOutcome).2.metrics.completed = s.metrics.completed ∧
    (process_task s task loadOk execOutcome).2.metrics.failed = s.metrics.failed ∧
    (process_task s task loadOk execOutcome).2.metrics.queued = s.metrics.queued ∧
    s.metrics.overdue ≤ (process_task s task loadOk execOutcome).2.metrics.overdue ∧
    (process_task s task loadOk execOutcome).2.metrics.overdue ≤ s.metrics.overdue + 1 ∧
    (submit_task s t').metrics.queued = s.metrics.queued + 1 ∧
    (submit_task s t').metrics.completed = s.metrics.completed ∧
    (submit_task s t').metrics.failed = s.metrics.failed ∧
    (submit_task s t').metrics.overdue = s.metrics.overdue := by
  cases hacq : acquire_gpu s.loads with
  | none => simp [process_task, hacq, submit_task, increment_queued_tasks]
  | some pr =>
      obtain ⟨gpu, loads₁⟩ := pr
      cases loadOk with
      | false => simp [process_task, hacq, submit_task, increment_queued_tasks]
      | true =>
          cases execOutcome with
          | none => simp [process_task, hacq, submit_task, increment_queued_tasks]
          | some t =>
              by_cases hover : task.max_duration < t
              · simp [process_task, hacq, hover, submit_task, increment_queued_tasks,
                  record_task_execution, increment_overdue_tasks]
              · simp [process_task, hacq, hover, submit_task, increment_queued_tasks,
                  record_task_execution]

/-- C8 counterexample: a dequeued task processed to successful completion
increments neither the `completed` nor the `failed` counter — `process_task`
contains no call that updates either — contradicting "increments exactly one
of the completed/failed counters". -/
theorem process_task_increments_no_outcome_counter :
    (process_task demoState demoTask true (some 5)).1 = .ok () ∧
    ¬ ((process_task demoState demoTask true (some 5)).2.metrics.completed
          = demoState.metrics.completed + 1 ∨
       (process_task demoState demoTask true (some 5)).2.metrics.failed
          = demoState.metrics.failed + 1) :=
  ⟨rfl, by decide⟩

/-- C1 (code bug exhibit): starting from one device at load 0, a task whose
model execution fails makes `process_task` return through `?` before
`release_gpu` runs, so the device's load counter stays at 1 instead of
returning to its pre-assignment value 0 — the acquire/release pair is not
closed on the error path. -/
theorem process_task_leaks_load_on_error :
    demoState.loads = [0] ∧
    (process_task demoState demoTask true none).1 = .error .ExecutionError ∧
    (process_task demoState demoTask true none).2.loads = [1] :=
  ⟨rfl, rfl, rfl⟩

/-- C2 (code bug exhibit): with an empty device pool, the dispatch iteration
of `process_task_queue` takes the task off the channel,
`select_available_device` returns `none`, and the `None` arm only logs — the
task is not put back anywhere: the remaining queue is empty. -/
theorem dequeued_task_dropped_when_no_device :
    process_task_queue_step [] [demoMTask] = ([], .noDevice demoMTask) ∧
    demoMTask ∉ (process_task_queue_step [] [demoMTask]).1 :=
  ⟨rfl, by decide⟩

/-- C3 counterexample: 101 successive `TaskScheduler::submit_task` calls
from an empty queue all complete immediately — none blocks, none errors —
and leave 101 pending tasks, exceeding the only capacity the source
configures (the `GPUManager` channel's 100): the scheduler queue is
unbounded. -/
theorem scheduler_queue_exceeds_capacity :
    ((List.replicate 101 demoTask).foldl submit_task demoState).queue.length = 101 ∧
    gpuChannelCapacity < 101 := by
  constructor
  · rw [queue_after_submits (List.replicate 101 demoTask) demoState]
    simp [demoState]
  · decide

/-- C3 (amended): only the `GPUManager` channel queue is bounded — a send
appends when fewer than 100 messages are pending, never lets the pending
count exceed 100, and on a full channel suspends the caller with the channel
unchanged (nothing dropped, no error) — while the `TaskScheduler` queue is
unbounded: every submit appends immediately, whatever the queue length. -/
theorem channel_bounded_scheduler_queue_unbounded (pending : List MTask)
    (t : MTask) (s : SchedulerState) (t' : ComputeTask)
    (hcap : pending.length ≤ gpuChannelCapacity) :
    (∀ q', channel_send pending t = some q' → q'.length ≤ gpuChannelCapacity) ∧
    (channel_send pending t = none ↔ pending.length = gpuChannelCapacity) ∧
    (submit_task s t').queue.length = s.queue.length + 1 := by
  refine ⟨?_, ?_, ?_⟩
  · intro q' hq'
    unfold channel_send at hq'
    by_cases h : pending.length < gpuChannelCapacity
    · rw [if_pos h] at hq'
      obtain rfl : pending ++ [t] = q' := Option.some.inj hq'
      simp only [List.length_append, List.length_singleton]
      omega
    · rw [if_neg h] at hq'
      cases hq'
  · constructor
    · intro hnone
      unfold channel_send at hnone
      by_cases h : pending.length < gpuChannelCapacity
      · rw [if_pos h] at hnone; cases hnone
      · omega
    · intro heq
      unfold channel_send
      rw [if_neg (by omega)]
  · simp [submit_task]

/-- Witness for C3 (amended) at concrete inputs: a send on an empty channel
stays within capacity and does not suspend, and a submit on the demo
scheduler grows its queue from 0 to 1. -/
theorem channel_bounded_witness :
    (∀ q', channel_send [] demoMTask = some q' → q'.length ≤ gpuChannelCapacity) ∧
    (channel_send [] demoMTask = none ↔ ([] : List MTask).length = gpuChannelCapacity) ∧
    (submit_task demoState demoTask).queue.length = demoState.queue.length + 1 :=
  channel_bounded_scheduler_queue_unbounded [] demoMTask demoState demoTask (by decide)

/-- C9: every `{total, used}` snapshot in the sequence `get_gpu_stats`
returns satisfies used ≤ total, for any registry state whose devices respect
the device-layer invariant that used memory is within total memory. -/
theorem get_gpu_stats_used_le_total (devices : List GPUDevice)
    (hinv : ∀ d ∈ devices, d.memUsed ≤ d.memory) :
    ∀ e ∈ get_gpu_stats devices, e.used ≤ e.total := by
  intro e he
  rw [get_gpu_stats] at he
  obtain ⟨d, hd, rfl⟩ := List.mem_map.mp he
  simpa [memory_info] using hinv d hd

/-- Witness for C9: the snapshot of the demo device (8 GiB total, 1 KiB
used) satisfies used ≤ total. -/
theorem get_gpu_stats_witness :
    (memory_info demoDevice).used ≤ (memory_info demoDevice).total :=
  get_gpu_stats_used_le_total [demoDevice] (by decide) (memory_info demoDevice)
    (by simp [get_gpu_stats])

/-- C10: `validate_data` returns the `InvalidFormat` error exactly when the
item fails the `is_valid_format` check (text empty or longer than 1000,
image empty or larger than 10000000 bytes, numeric outside [0, 1]), and on a
format failure it returns before consensus or storage: the store contents
are unchanged, whatever the consensus and store oracles would have
answered. -/
theorem validate_data_invalid_format_no_store (data : DataItem)
    (consensus : Except Unit ValidationResult) (storeOutcome : Except String Unit)
    (stored : List (DataItem × ValidationResult)) :
    ((validate_data data consensus storeOutcome stored).1 = .error .InvalidFormat ↔
      is_valid_format data = false) ∧
    (is_valid_format data = false →
      (validate_data data consensus storeOutcome stored).2 = stored) := by
  by_cases h : is_valid_format data = true
  · cases consensus <;> cases storeOutcome <;> simp [validate_data, h]
  · simp [validate_data, h]

end OmniTensor
